import Mathlib

/-!
Verification of the training-loop control flow of the LatentTrees repository.

The repository consists of two driver scripts, `dntn.py` and
`tune_clustering.py`, plus the monitoring helper `src/monitors.py`.  The
numerical kernels (`DNDT`, `LTRegressor`, `train_stochastic`, `evaluate`,
`LT_dendrogram_purity`, the optimizer and the learning-rate scheduler) are
external library imports; they are modelled as opaque type parameters and
oracle functions, while every piece of control flow that appears in the three
source files is embedded faithfully below.

IEEE-754 floating point comparison only matters here through two facts used by
the scripts: every comparison involving NaN is false, and any non-NaN value is
`<=` +infinity.  Validation metrics are therefore modelled by the inductive
type `FloatVal` (NaN, +infinity, or an exact rational), with `fleb` playing
the role of Python's `<=` on floats and `fisnan` the role of `np.isnan`.
-/

/-- A floating-point validation metric as the scripts observe it: NaN,
+infinity (the initial `best_val_loss = float("inf")`), or a finite value
(modelled exactly as a rational). -/
inductive FloatVal where
  | nan : FloatVal
  | inf : FloatVal
  | num (q : ℚ) : FloatVal
deriving DecidableEq

/-- Python's `<=` on floats, restricted to the values above: any comparison
with NaN is false, every non-NaN value is `<=` +infinity, finite values
compare as rationals. -/
def fleb : FloatVal → FloatVal → Bool
  | .nan, _ => false
  | _, .nan => false
  | .inf, .inf => true
  | .inf, .num _ => false
  | .num _, .inf => true
  | .num a, .num b => decide (a ≤ b)

/-- `np.isnan` on a `FloatVal`. -/
def fisnan : FloatVal → Bool
  | .nan => true
  | _ => false

theorem fleb_nan_left (v : FloatVal) : fleb .nan v = false := by
  cases v <;> rfl

theorem fleb_nan_iff (v w : FloatVal) (h : fisnan v = true) : fleb v w = false := by
  cases v with
  | nan => exact fleb_nan_left w
  | inf => simp [fisnan] at h
  | num q => simp [fisnan] at h

theorem fleb_inf_of_not_nan (v : FloatVal) (h : fisnan v = false) : fleb v .inf = true := by
  cases v with
  | nan => simp [fisnan] at h
  | inf => rfl
  | num q => rfl

/-- A primitive value as stored in the flat `state` dictionaries of the two
scripts (Python ints, strings, floats and bools). -/
inductive Prim where
  | int (i : ℤ) : Prim
  | str (s : String) : Prim
  | rat (q : ℚ) : Prim
  | bool (b : Bool) : Prim
deriving DecidableEq

/-- The `state` dictionary of `dntn.py` (lines 57-63): batch size, loss name,
learning rate, seed and dataset name.  `BATCH_SIZE = 512` and `LR = 0.001`
are the module-level constants; the seed varies over the seed loop and the
dataset name is `sys.argv[1]`. -/
def dntnStateRecord (seed : ℤ) (dataName : String) : List (String × Prim) :=
  [("batch-size", .int 512),
   ("loss-function", .str "BCE"),
   ("learning-rate", .rat (1 / 1000)),
   ("seed", .int seed),
   ("dataset", .str dataName)]

/-- The `state` dictionary of `tune_clustering.py` (lines 94-102): the five
keys of `dntn.py` plus the regularization weight `reg` (the trial's `REG`)
and the split-function flag `linear`.  There `LR = 0.1`, `SEED = 1337`,
`DATA_NAME = "COVTYPE"`; the batch size depends on the dataset branch. -/
def tuneStateRecord (batchSize : ℤ) (reg : ℚ) : List (String × Prim) :=
  [("batch-size", .int batchSize),
   ("loss-function", .str "MSE"),
   ("learning-rate", .rat (1 / 10)),
   ("seed", .int 1337),
   ("dataset", .str "COVTYPE"),
   ("reg", .rat reg),
   ("linear", .bool true)]

/-! ## The dntn.py training loop (one seed iteration, lines 36-100)

The model `DNDT(...)`, the optimizer `QHAdam(...)` and the calls
`train_stochastic(...)` / `evaluate(...)` are external: the model and
optimizer are opaque types `M` and `O`, one epoch of `train_stochastic`
is an oracle `train : Nat → M × O → M × O` (it updates the model parameters
and the optimizer state), and the validation metric returned by `evaluate`
at epoch `e` is an oracle `vals : Nat → FloatVal` (`val_loss['valid_ER']`).
The learning-rate scheduler only influences training through the optimizer,
which the oracle already absorbs. -/

/-- What `DNDT.save_model(model, optimizer, state, save_dir, epoch=e, **val_loss)`
(resp. `LTRegressor.save_model(..., epoch=e, val_mse=...)`) persists into the
save directory: the model, the optimizer, the flat state record, the epoch
number and the epoch's validation metric. -/
structure Checkpoint (M O : Type) where
  model : M
  optimizer : O
  stateRec : List (String × Prim)
  epoch : ℕ
  valMetric : FloatVal
deriving DecidableEq

/-- `DNDT.save_model` / `LTRegressor.save_model`: build the checkpoint that
overwrites the save directory. -/
def save_model {M O : Type} (model : M) (optimizer : O)
    (stateRec : List (String × Prim)) (epoch : ℕ) (valMetric : FloatVal) :
    Checkpoint M O :=
  ⟨model, optimizer, stateRec, epoch, valMetric⟩

/-- `torch.load` on a missing checkpoint file raises; an existing checkpoint
loads back the model it stored. -/
inductive LoadError where
  | fileNotFound : LoadError
deriving DecidableEq

/-- `DNDT.load_model(save_dir)` / `LTRegressor.load_model(save_dir)`: read the
single checkpoint slot of the save directory and return its model. -/
def load_model {M O : Type} (disk : Option (Checkpoint M O)) : Except LoadError M :=
  match disk with
  | none => .error .fileNotFound
  | some cp => .ok cp.model

/-- The mutable state of one seed iteration of `dntn.py`: the in-memory model
and optimizer, the running minimum `best_val_loss` (initially `float("inf")`),
the best epoch `best_e` (initially `-1`), the no-improvement counter
`no_improv` (initially `0`), the single checkpoint slot of the save directory
(`disk`, overwritten by each `DNDT.save_model` call), and a trace `saved` of
every checkpoint ever written (epoch, metric). -/
structure DntnSt (M O : Type) where
  model : M
  optimizer : O
  best_val_loss : FloatVal
  best_e : ℤ
  no_improv : ℕ
  disk : Option (Checkpoint M O)
  saved : List (ℕ × FloatVal)
deriving DecidableEq

/-- State at loop entry (dntn.py lines 43-68): fresh model and optimizer,
`best_val_loss = inf`, `best_e = -1`, `no_improv = 0`, nothing saved yet. -/
def dntnInit {M O : Type} (m0 : M) (o0 : O) : DntnSt M O :=
  ⟨m0, o0, .inf, -1, 0, none, []⟩

/-- One epoch body of dntn.py (lines 70-83): run `train_stochastic`, read
the validation metric, increment `no_improv`, and on `val_loss <= best_val_loss`
update the running minimum and best epoch, persist model+optimizer+state via
`DNDT.save_model`, and reset `no_improv` to 0.  (The `lr_scheduler.step` call
touches only the external optimizer state.) -/
def dntnBody {M O : Type} (train : ℕ → M × O → M × O) (vals : ℕ → FloatVal)
    (stateRec : List (String × Prim)) (e : ℕ) (s : DntnSt M O) : DntnSt M O :=
  let mo := train e (s.model, s.optimizer)
  let v := vals e
  let s1 : DntnSt M O :=
    { s with model := mo.1, optimizer := mo.2, no_improv := s.no_improv + 1 }
  if fleb v s1.best_val_loss then
    { s1 with best_val_loss := v, best_e := (e : ℤ), no_improv := 0,
              disk := some (save_model mo.1 mo.2 stateRec e v),
              saved := s1.saved ++ [(e, v)] }
  else s1

/-- The epoch-body iteration without the early-stop break: `dntnIter ... k` is
the state after the bodies of epochs `0, 1, ..., k-1` have run. -/
def dntnIter {M O : Type} (train : ℕ → M × O → M × O) (vals : ℕ → FloatVal)
    (stateRec : List (String × Prim)) (m0 : M) (o0 : O) :
    ℕ → DntnSt M O
  | 0 => dntnInit m0 o0
  | k + 1 => dntnBody train vals stateRec k
      (dntnIter train vals stateRec m0 o0 k)

/-- The `for e in range(EPOCHS)` loop of dntn.py with its early-stop break
(lines 69-86): run the epoch body, then `break` when `no_improv == EPOCHS // 5`.
`fuel` is the number of loop indices still available and `e` the next epoch
index; the result is the final state together with the number of epochs that
actually executed. -/
def dntnLoopAux {M O : Type} (epochs : ℕ) (train : ℕ → M × O → M × O)
    (vals : ℕ → FloatVal) (stateRec : List (String × Prim)) :
    ℕ → ℕ → DntnSt M O → DntnSt M O × ℕ
  | 0, e, s => (s, e)
  | fuel + 1, e, s =>
      let s' := dntnBody train vals stateRec e s
      if s'.no_improv == epochs / 5 then (s', e + 1)
      else dntnLoopAux epochs train vals stateRec fuel (e + 1) s'

/-- One full seed iteration of the dntn.py epoch loop: start from the fresh
state and run the loop over `range(epochs)`.  Returns the final state and the
number of executed epochs. -/
def dntnRun {M O : Type} (epochs : ℕ) (train : ℕ → M × O → M × O)
    (vals : ℕ → FloatVal) (stateRec : List (String × Prim)) (m0 : M) (o0 : O) :
    DntnSt M O × ℕ :=
  dntnLoopAux epochs train vals stateRec epochs 0 (dntnInit m0 o0)

/-- Lines 91-94 of dntn.py: after the loop, discard the in-memory model,
reload the checkpoint with `DNDT.load_model(save_dir)` and evaluate the test
metric on the reloaded model (`evaluate(testloader, model, ...)`, an oracle
`evalTest : M → FloatVal`). -/
def dntnFullRun {M O : Type} (epochs : ℕ) (train : ℕ → M × O → M × O)
    (vals : ℕ → FloatVal) (stateRec : List (String × Prim)) (m0 : M) (o0 : O)
    (evalTest : M → FloatVal) : Except LoadError FloatVal :=
  let r := dntnRun epochs train vals stateRec m0 o0
  match load_model r.1.disk with
  | .error err => .error err
  | .ok m => .ok (evalTest m)

/-! ## src/monitors.py -/

/-- The latent-tree variables that `MonitorTree.write` reads from
`model.latent_tree`: the vectors `eta` and `d` (modelled as exact rational
vectors). -/
structure LatentTree where
  eta : List ℚ
  d : List ℚ
deriving DecidableEq

/-- The `LTRegressor` model as far as the shown code inspects it: its
`latent_tree` attribute plus opaque parameters `P`. -/
structure LTModel (P : Type) where
  latent_tree : LatentTree
  params : P
deriving DecidableEq

/-- `torch.norm(x, p=float('inf'))`: the maximum absolute entry. -/
def normLinf (xs : List ℚ) : ℚ := (xs.map (fun x => |x|)).foldr max 0

/-- `torch.norm(x, p=1)`: the sum of absolute entries. -/
def normL1 (xs : List ℚ) : ℚ := (xs.map (fun x => |x|)).sum

/-- `torch.clamp(x, 0, 1)` applied entrywise. -/
def clamp01 (x : ℚ) : ℚ := min 1 (max 0 x)

/-- `torch.norm(x, p=0)`: the number of nonzero entries. -/
def normL0 (xs : List ℚ) : ℚ := ((xs.filter (fun x => x ≠ 0)).length : ℚ)

/-- One `add_scalars` call made by `MonitorTree.write`: either the
`variables/eta_group` statistics, the `variables/d_group` statistic, or the
scalar group of one keyword metric (tagged by the keyword). -/
inductive WGroup where
  | etaGroup (linf l1 l0 : ℚ) : WGroup
  | dGroup (l0 : ℚ) : WGroup
  | scalars (key : String) : WGroup
deriving DecidableEq

/-- `MonitorTree` (src/monitors.py): its construction stores the `pruning`
flag; the SummaryWriter itself is external. -/
structure MonitorTree where
  pruning : Bool
deriving DecidableEq

/-- `MonitorTree.write(model, it, report_tree=False, **metrics)`: when both
`report_tree` and the stored `pruning` flag hold, emit the eta-norm group
(`linf`, `l1`, `l0` of the clamped vector) and the d-norm group (`l0` of the
clamped vector); then always emit one scalar group per keyword metric, in
order.  The result is the list of `add_scalars` calls performed. -/
def MonitorTree.write {P : Type} (m : MonitorTree) (model : LTModel P) (it : ℕ)
    (report_tree : Bool) (metrics : List String) : List WGroup :=
  let _ := it
  (if report_tree && m.pruning then
    [WGroup.etaGroup (normLinf model.latent_tree.eta)
        (normL1 model.latent_tree.eta)
        (normL0 (model.latent_tree.eta.map clamp01)),
     WGroup.dGroup (normL0 (model.latent_tree.d.map clamp01))]
  else []) ++ metrics.map WGroup.scalars

/-- One event in the lifetime of the monitor attached to a trial: a
`MonitorTree.write` call (with its iteration number and the scalar groups it
emitted) or `MonitorTree.close` (which exports the scalars to
`monitor_scalars.json` and closes the writer). -/
inductive MEvent where
  | write (it : ℕ) (groups : List WGroup) : MEvent
  | close : MEvent
deriving DecidableEq

/-! ## The tune_clustering.py objective (lines 66-133)

As for dntn.py, `train_stochastic` and the optimizer are absorbed into an
oracle `train : ℕ → LTModel P × O → LTModel P × O`, the validation MSE of
epoch `e` is an oracle `vals : ℕ → FloatVal` (`val_loss['MSE']`), and
`LT_dendrogram_purity` is an oracle `purity : LTModel P → ℚ`. -/

/-- The mutable state of one `objective(trial)` call: in-memory model and
optimizer, running minimum `best_val_loss`, best epoch `best_e`, the
checkpoint slot of the save directory, the trace of `save_model` calls, and
the monitor's event log. -/
structure TuneSt (P O : Type) where
  model : LTModel P
  optimizer : O
  best_val_loss : FloatVal
  best_e : ℤ
  disk : Option (Checkpoint (LTModel P) O)
  saved : List (ℕ × FloatVal)
  log : List MEvent
deriving DecidableEq

/-- State at loop entry (tune_clustering.py lines 77-105). -/
def tuneInit {P O : Type} (m0 : LTModel P) (o0 : O) : TuneSt P O :=
  ⟨m0, o0, .inf, -1, none, [], []⟩

/-- One epoch body of the objective (lines 107-118): `train_stochastic`,
`evaluate`, the checkpoint test (`val_loss['MSE'] <= best_val_loss` saves
model+optimizer+state and updates the running minimum and best epoch),
`lr_scheduler.step`, and the monitor write
`monitor.write(model, e, train={"lr": ...})` — with `report_tree` left at its
default `False` this emits exactly the one `train` scalar group
(`MonitorTree.write _ _ _ false ["train"]`). -/
def tuneBody {P O : Type} (train : ℕ → LTModel P × O → LTModel P × O)
    (vals : ℕ → FloatVal) (stateRec : List (String × Prim)) (monitor : MonitorTree)
    (e : ℕ) (s : TuneSt P O) : TuneSt P O :=
  let mo := train e (s.model, s.optimizer)
  let v := vals e
  let s1 : TuneSt P O := { s with model := mo.1, optimizer := mo.2 }
  let s2 : TuneSt P O :=
    if fleb v s1.best_val_loss then
      { s1 with best_val_loss := v, best_e := (e : ℤ),
                disk := some (save_model mo.1 mo.2 stateRec e v),
                saved := s1.saved ++ [(e, v)] }
    else s1
  { s2 with log := s2.log ++ [.write e (monitor.write mo.1 e false ["train"])] }

/-- The break-free iteration of the objective's epoch body. -/
def tuneIter {P O : Type} (train : ℕ → LTModel P × O → LTModel P × O)
    (vals : ℕ → FloatVal) (stateRec : List (String × Prim)) (monitor : MonitorTree)
    (m0 : LTModel P) (o0 : O) : ℕ → TuneSt P O
  | 0 => tuneInit m0 o0
  | k + 1 => tuneBody train vals stateRec monitor k
      (tuneIter train vals stateRec monitor m0 o0 k)

/-- The `for e in range(EPOCHS)` loop of the objective with the NaN abort
(lines 106-122): after the epoch body, if `np.isnan(val_loss['MSE'])` then
`monitor.close()` and `raise optuna.TrialPruned()`.  Returns the state, the
number of executed epochs, and whether the trial was pruned. -/
def tuneLoopAux {P O : Type} (train : ℕ → LTModel P × O → LTModel P × O)
    (vals : ℕ → FloatVal) (stateRec : List (String × Prim)) (monitor : MonitorTree) :
    ℕ → ℕ → TuneSt P O → TuneSt P O × ℕ × Bool
  | 0, e, s => (s, e, false)
  | fuel + 1, e, s =>
      let s' := tuneBody train vals stateRec monitor e s
      if fisnan (vals e) then ({ s' with log := s'.log ++ [.close] }, e + 1, true)
      else tuneLoopAux train vals stateRec monitor fuel (e + 1) s'

/-- The outcome of one `objective(trial)` call: the trial was pruned
(`optuna.TrialPruned` raised), or the post-loop `LTRegressor.load_model`
failed because no checkpoint was ever written, or the objective returned the
dendrogram-purity score. -/
inductive TuneOutcome where
  | pruned : TuneOutcome
  | loadFailure : TuneOutcome
  | score (q : ℚ) : TuneOutcome
deriving DecidableEq

/-- One full `objective(trial)` call (lines 104-133): run the epoch loop; on
a NaN abort propagate `TrialPruned`; otherwise reload the checkpointed model
with `LTRegressor.load_model(save_dir)`, compute the dendrogram purity of the
reloaded model, write it to the monitor
(`monitor.write(model, e, val={"Dendrogram Purity": score})`, with `e` the
last loop index, i.e. `epochs - 1`), close the monitor and return the score.
The final state's `model` field is the reloaded model, mirroring the
reassignment `model = LTRegressor.load_model(save_dir)`. -/
def tuneObjective {P O : Type} (epochs : ℕ)
    (train : ℕ → LTModel P × O → LTModel P × O) (vals : ℕ → FloatVal)
    (stateRec : List (String × Prim)) (monitor : MonitorTree)
    (m0 : LTModel P) (o0 : O) (purity : LTModel P → ℚ) :
    TuneSt P O × TuneOutcome :=
  let r := tuneLoopAux train vals stateRec monitor epochs 0 (tuneInit m0 o0)
  if r.2.2 then (r.1, .pruned)
  else
    match r.1.disk with
    | none => (r.1, .loadFailure)
    | some cp =>
        let sc := purity cp.model
        let s' : TuneSt P O :=
          { r.1 with
            model := cp.model
            log := r.1.log ++
              [.write (epochs - 1) (monitor.write cp.model (epochs - 1) false ["val"]),
               .close] }
        (s', .score sc)

/-! ## The CLI surface of dntn.py (lines 18-19)

`DATA_NAME = sys.argv[1]` and `WORKERS = int(sys.argv[2])` run before any
dataset loading or training.  `argv` includes the script name at index 0, so
fewer than two user arguments means `argv` has fewer than three entries and
indexing raises `IndexError`; a second argument that `int()` rejects raises
`ValueError`. -/

/-- The two language-native failures of the argument prelude. -/
inductive CliError where
  | indexError : CliError
  | valueError : CliError
deriving DecidableEq

/-- Digit tail of a Python integer literal: digits, optionally separated by
single underscores that must sit between two digits. -/
def pyIntAux (acc : ℕ) : List Char → Option ℕ
  | [] => some acc
  | '_' :: c :: cs =>
      if c.isDigit then pyIntAux (10 * acc + (c.toNat - 48)) cs else none
  | c :: cs =>
      if c.isDigit then pyIntAux (10 * acc + (c.toNat - 48)) cs else none

/-- `str.strip()` as `int()` applies it: drop leading and trailing
whitespace. -/
def pyStrip (cs : List Char) : List Char :=
  ((cs.dropWhile Char.isWhitespace).reverse.dropWhile Char.isWhitespace).reverse

/-- Python's `int(s)` on a decimal string: surrounding whitespace is
stripped, then an optional sign followed by a nonempty digit string (with
optional single underscores between digits); anything else raises
`ValueError` (`none`). -/
def pyInt (s : String) : Option ℤ :=
  match pyStrip s.toList with
  | '+' :: c :: rest =>
      if c.isDigit then (pyIntAux (c.toNat - 48) rest).map Int.ofNat else none
  | '-' :: c :: rest =>
      if c.isDigit then (pyIntAux (c.toNat - 48) rest).map (fun n => -(n : ℤ)) else none
  | c :: rest =>
      if c.isDigit then (pyIntAux (c.toNat - 48) rest).map Int.ofNat else none
  | [] => none

/-- Lines 18-19 of dntn.py: read `sys.argv[1]` as the dataset name (used
as-is) and `int(sys.argv[2])` as the worker count; no validation beyond the
language-native failures. -/
def parseArgs (argv : List String) : Except CliError (String × ℤ) :=
  match argv.get? 1 with
  | none => .error .indexError
  | some dataName =>
      match argv.get? 2 with
      | none => .error .indexError
      | some w =>
          match pyInt w with
          | none => .error .valueError
          | some n => .ok (dataName, n)

/-- The dntn.py script from its first line: parse the two positional
arguments, and only then (with the dataset name in the state record) run the
training of one seed.  An argument error aborts before any training. -/
def dntnMain {M O : Type} (argv : List String) (epochs : ℕ) (seed : ℤ)
    (train : ℕ → M × O → M × O) (vals : ℕ → FloatVal) (m0 : M) (o0 : O)
    (evalTest : M → FloatVal) : Except CliError (Except LoadError FloatVal) :=
  match parseArgs argv with
  | .error err => .error err
  | .ok cfg =>
      .ok (dntnFullRun epochs train vals (dntnStateRecord seed cfg.1) m0 o0 evalTest)

/-! ## The best-checkpoint policy, stated from the spec's words

`bestSpecStep` is written from the specification sentence alone: "track a
running minimum of a scalar validation metric (starting from +infinity); on
tie-or-better (`<=`), persist model+optimizer+state, update the running
minimum and best-epoch to that epoch's values and reset a no-improvement
counter; in every other epoch write no checkpoint".  It is compared against
the loop bodies embedded from the source. -/

/-- The observable checkpoint bookkeeping named by the spec: running minimum,
best epoch, trace of persisted checkpoints, no-improvement counter. -/
structure BestSpec where
  best : FloatVal
  bestEpoch : ℤ
  saves : List (ℕ × FloatVal)
  counter : ℕ
deriving DecidableEq

/-- Modelled from the spec: one epoch of the best-checkpoint policy. -/
def bestSpecStep (v : FloatVal) (e : ℕ) (t : BestSpec) : BestSpec :=
  if fleb v t.best then ⟨v, (e : ℤ), t.saves ++ [(e, v)], 0⟩
  else { t with counter := t.counter + 1 }

/-- Modelled from the spec: the best-checkpoint policy after epochs
`0, ..., k-1`, starting from `+infinity`, best epoch `-1`, empty trace. -/
def bestSpecIter (vals : ℕ → FloatVal) : ℕ → BestSpec
  | 0 => ⟨.inf, -1, [], 0⟩
  | k + 1 => bestSpecStep (vals k) k (bestSpecIter vals k)

/-- The checkpoint bookkeeping visible in a `dntn.py` loop state. -/
def DntnSt.policyView {M O : Type} (s : DntnSt M O) : BestSpec :=
  ⟨s.best_val_loss, s.best_e, s.saved, s.no_improv⟩

/-- The counterless part of the best-checkpoint bookkeeping (the objective of
tune_clustering.py keeps no no-improvement counter): running minimum, best
epoch, persisted-checkpoint trace. -/
def BestSpec.ckptView (t : BestSpec) : FloatVal × ℤ × List (ℕ × FloatVal) :=
  (t.best, t.bestEpoch, t.saves)

/-- The checkpoint bookkeeping visible in a `tune_clustering.py` loop state. -/
def TuneSt.ckptView {P O : Type} (s : TuneSt P O) : FloatVal × ℤ × List (ℕ × FloatVal) :=
  (s.best_val_loss, s.best_e, s.saved)

/-! ## Correspondence between the loops and their break-free iterations -/

/-- Iteration of the dntn.py epoch body starting at epoch `e0` from state
`s0`. -/
def dntnIterFrom {M O : Type} (train : ℕ → M × O → M × O) (vals : ℕ → FloatVal)
    (stateRec : List (String × Prim)) (e0 : ℕ) (s0 : DntnSt M O) :
    ℕ → DntnSt M O
  | 0 => s0
  | k + 1 => dntnBody train vals stateRec (e0 + k)
      (dntnIterFrom train vals stateRec e0 s0 k)

theorem dntnIterFrom_shift {M O : Type} (train : ℕ → M × O → M × O)
    (vals : ℕ → FloatVal) (stateRec : List (String × Prim)) (e0 : ℕ)
    (s0 : DntnSt M O) (j : ℕ) :
    dntnIterFrom train vals stateRec (e0 + 1) (dntnBody train vals stateRec e0 s0) j
      = dntnIterFrom train vals stateRec e0 s0 (j + 1) := by
  induction j with
  | zero => rfl
  | succ j ih =>
      show dntnBody train vals stateRec (e0 + 1 + j) _
        = dntnBody train vals stateRec (e0 + (j + 1)) _
      rw [ih]
      have h : e0 + 1 + j = e0 + (j + 1) := by omega
      rw [h]

theorem dntnIter_eq_iterFrom {M O : Type} (train : ℕ → M × O → M × O)
    (vals : ℕ → FloatVal) (stateRec : List (String × Prim)) (m0 : M) (o0 : O)
    (k : ℕ) :
    dntnIter train vals stateRec m0 o0 k
      = dntnIterFrom train vals stateRec 0 (dntnInit m0 o0) k := by
  induction k with
  | zero => rfl
  | succ k ih =>
      show dntnBody train vals stateRec k _ = dntnBody train vals stateRec (0 + k) _
      rw [ih, Nat.zero_add]

theorem dntnLoopAux_succ {M O : Type} (epochs : ℕ) (train : ℕ → M × O → M × O)
    (vals : ℕ → FloatVal) (stateRec : List (String × Prim)) (fuel e : ℕ)
    (s : DntnSt M O) :
    dntnLoopAux epochs train vals stateRec (fuel + 1) e s =
      if (dntnBody train vals stateRec e s).no_improv = epochs / 5
      then (dntnBody train vals stateRec e s, e + 1)
      else dntnLoopAux epochs train vals stateRec fuel (e + 1)
        (dntnBody train vals stateRec e s) := by
  simp only [dntnLoopAux]
  by_cases h : (dntnBody train vals stateRec e s).no_improv = epochs / 5 <;> simp [h]

/-- The dntn.py loop with its break executes the epoch bodies of a prefix of
`range(fuel)` starting at `e0`: it runs some `k ≤ fuel` bodies, the
end-of-epoch break test fails after every body except possibly the last, and
when the loop stops with fuel remaining the last test succeeded. -/
theorem dntn_loop_correspond {M O : Type} (epochs : ℕ) (train : ℕ → M × O → M × O)
    (vals : ℕ → FloatVal) (stateRec : List (String × Prim)) :
    ∀ (fuel e0 : ℕ) (s0 : DntnSt M O), ∃ k : ℕ,
      dntnLoopAux epochs train vals stateRec fuel e0 s0 =
        (dntnIterFrom train vals stateRec e0 s0 k, e0 + k) ∧
      k ≤ fuel ∧ (fuel ≠ 0 → 0 < k) ∧
      (∀ j, j + 1 < k →
        (dntnIterFrom train vals stateRec e0 s0 (j + 1)).no_improv ≠ epochs / 5) ∧
      (k < fuel →
        (dntnIterFrom train vals stateRec e0 s0 k).no_improv = epochs / 5) := by
  intro fuel
  induction fuel with
  | zero =>
      intro e0 s0
      exact ⟨0, rfl, le_rfl, by omega, by omega, by omega⟩
  | succ fuel ih =>
      intro e0 s0
      rw [dntnLoopAux_succ]
      by_cases hbr : (dntnBody train vals stateRec e0 s0).no_improv = epochs / 5
      · refine ⟨1, ?_, by omega, fun _ => by omega, by omega, fun _ => ?_⟩
        · rw [if_pos hbr]
          simp [dntnIterFrom]
        · exact hbr
      · rw [if_neg hbr]
        obtain ⟨k', heq, hk'le, _, hnb, hbrk⟩ :=
          ih (e0 + 1) (dntnBody train vals stateRec e0 s0)
        refine ⟨k' + 1, ?_, by omega, fun _ => by omega, ?_, ?_⟩
        · have hn : e0 + 1 + k' = e0 + (k' + 1) := by omega
          rw [heq, dntnIterFrom_shift, hn]
        · intro j hj
          match j with
          | 0 => exact hbr
          | j + 1 =>
              have := hnb j (by omega)
              rwa [dntnIterFrom_shift] at this
        · intro hk
          have := hbrk (by omega)
          rwa [dntnIterFrom_shift] at this

/-- Run-level correspondence for dntn.py: the loop state is the break-free
iteration at the executed-epoch count, the count is at most `epochs`, at
least one epoch runs when `epochs > 0`, every break test before the last
executed epoch failed, and an early exit means the last test succeeded. -/
theorem dntn_run_correspond {M O : Type} (epochs : ℕ) (train : ℕ → M × O → M × O)
    (vals : ℕ → FloatVal) (stateRec : List (String × Prim)) (m0 : M) (o0 : O) :
    (dntnRun epochs train vals stateRec m0 o0).1 =
      dntnIter train vals stateRec m0 o0 (dntnRun epochs train vals stateRec m0 o0).2 ∧
    (dntnRun epochs train vals stateRec m0 o0).2 ≤ epochs ∧
    (epochs ≠ 0 → 0 < (dntnRun epochs train vals stateRec m0 o0).2) ∧
    (∀ j, j + 1 < (dntnRun epochs train vals stateRec m0 o0).2 →
      (dntnIter train vals stateRec m0 o0 (j + 1)).no_improv ≠ epochs / 5) ∧
    ((dntnRun epochs train vals stateRec m0 o0).2 < epochs →
      (dntnIter train vals stateRec m0 o0
        (dntnRun epochs train vals stateRec m0 o0).2).no_improv = epochs / 5) := by
  obtain ⟨k, heq, hkle, hpos, hnb, hbrk⟩ :=
    dntn_loop_correspond epochs train vals stateRec epochs 0 (dntnInit m0 o0)
  have hsnd : (dntnRun epochs train vals stateRec m0 o0).2 = k := by
    unfold dntnRun
    rw [heq]
    simp
  have hfst : (dntnRun epochs train vals stateRec m0 o0).1 =
      dntnIterFrom train vals stateRec 0 (dntnInit m0 o0) k := by
    unfold dntnRun
    rw [heq]
  refine ⟨?_, ?_, ?_, ?_, ?_⟩
  · rw [hfst, hsnd, dntnIter_eq_iterFrom]
  · omega
  · omega
  · intro j hj
    rw [dntnIter_eq_iterFrom]
    exact hnb j (by omega)
  · intro hlt
    rw [hsnd, dntnIter_eq_iterFrom]
    exact hbrk (by omega)

/-- Iteration of the objective's epoch body starting at epoch `e0` from state
`s0`. -/
def tuneIterFrom {P O : Type} (train : ℕ → LTModel P × O → LTModel P × O)
    (vals : ℕ → FloatVal) (stateRec : List (String × Prim)) (monitor : MonitorTree)
    (e0 : ℕ) (s0 : TuneSt P O) : ℕ → TuneSt P O
  | 0 => s0
  | k + 1 => tuneBody train vals stateRec monitor (e0 + k)
      (tuneIterFrom train vals stateRec monitor e0 s0 k)

theorem tuneIterFrom_shift {P O : Type} (train : ℕ → LTModel P × O → LTModel P × O)
    (vals : ℕ → FloatVal) (stateRec : List (String × Prim)) (monitor : MonitorTree)
    (e0 : ℕ) (s0 : TuneSt P O) (j : ℕ) :
    tuneIterFrom train vals stateRec monitor (e0 + 1)
        (tuneBody train vals stateRec monitor e0 s0) j
      = tuneIterFrom train vals stateRec monitor e0 s0 (j + 1) := by
  induction j with
  | zero => rfl
  | succ j ih =>
      show tuneBody train vals stateRec monitor (e0 + 1 + j) _
        = tuneBody train vals stateRec monitor (e0 + (j + 1)) _
      rw [ih]
      have h : e0 + 1 + j = e0 + (j + 1) := by omega
      rw [h]

theorem tuneIter_eq_iterFrom {P O : Type} (train : ℕ → LTModel P × O → LTModel P × O)
    (vals : ℕ → FloatVal) (stateRec : List (String × Prim)) (monitor : MonitorTree)
    (m0 : LTModel P) (o0 : O) (k : ℕ) :
    tuneIter train vals stateRec monitor m0 o0 k
      = tuneIterFrom train vals stateRec monitor 0 (tuneInit m0 o0) k := by
  induction k with
  | zero => rfl
  | succ k ih =>
      show tuneBody train vals stateRec monitor k _
        = tuneBody train vals stateRec monitor (0 + k) _
      rw [ih, Nat.zero_add]

theorem tuneLoopAux_succ {P O : Type} (train : ℕ → LTModel P × O → LTModel P × O)
    (vals : ℕ → FloatVal) (stateRec : List (String × Prim)) (monitor : MonitorTree)
    (fuel e : ℕ) (s : TuneSt P O) :
    tuneLoopAux train vals stateRec monitor (fuel + 1) e s =
      if fisnan (vals e) = true
      then ({ tuneBody train vals stateRec monitor e s with
              log := (tuneBody train vals stateRec monitor e s).log ++ [.close] },
            e + 1, true)
      else tuneLoopAux train vals stateRec monitor fuel (e + 1)
        (tuneBody train vals stateRec monitor e s) := by
  rfl

/-- The objective's loop with its NaN abort executes the epoch bodies of a
prefix of `range(fuel)`: the abort fires at the first NaN metric (after that
epoch's body, with the monitor closed on top of it), and without a NaN the
loop runs all `fuel` epochs. -/
theorem tune_loop_correspond {P O : Type} (train : ℕ → LTModel P × O → LTModel P × O)
    (vals : ℕ → FloatVal) (stateRec : List (String × Prim)) (monitor : MonitorTree) :
    ∀ (fuel e0 : ℕ) (s0 : TuneSt P O), ∃ k : ℕ,
      (tuneLoopAux train vals stateRec monitor fuel e0 s0).2.1 = e0 + k ∧
      k ≤ fuel ∧ (fuel ≠ 0 → 0 < k) ∧
      (∀ j, j + 1 ≤ k → fisnan (vals (e0 + j)) = false ∨ j + 1 = k) ∧
      ((tuneLoopAux train vals stateRec monitor fuel e0 s0).2.2 = true →
        0 < k ∧ fisnan (vals (e0 + (k - 1))) = true ∧
        (tuneLoopAux train vals stateRec monitor fuel e0 s0).1 =
          { tuneIterFrom train vals stateRec monitor e0 s0 k with
            log := (tuneIterFrom train vals stateRec monitor e0 s0 k).log ++ [.close] }) ∧
      ((tuneLoopAux train vals stateRec monitor fuel e0 s0).2.2 = false →
        k = fuel ∧ (∀ j, j < k → fisnan (vals (e0 + j)) = false) ∧
        (tuneLoopAux train vals stateRec monitor fuel e0 s0).1 =
          tuneIterFrom train vals stateRec monitor e0 s0 k) := by
  intro fuel
  induction fuel with
  | zero =>
      intro e0 s0
      refine ⟨0, by simp [tuneLoopAux], le_rfl, by omega, by omega, ?_, ?_⟩
      · intro h
        simp [tuneLoopAux] at h
      · intro _
        exact ⟨rfl, by omega, rfl⟩
  | succ fuel ih =>
      intro e0 s0
      rw [tuneLoopAux_succ]
      by_cases hn : fisnan (vals e0) = true
      · rw [if_pos hn]
        refine ⟨1, by simp, by omega, fun _ => by omega, ?_, ?_, ?_⟩
        · intro j hj
          right
          omega
        · intro _
          refine ⟨by omega, ?_, ?_⟩
          · simpa using hn
          · simp [tuneIterFrom]
        · intro h
          simp at h
      · rw [if_neg hn]
        have hnf : fisnan (vals e0) = false := by
          simpa using hn
        obtain ⟨k', hcnt, hk'le, _, hfirst, hpr, hnp⟩ :=
          ih (e0 + 1) (tuneBody train vals stateRec monitor e0 s0)
        refine ⟨k' + 1, ?_, by omega, fun _ => by omega, ?_, ?_, ?_⟩
        · rw [hcnt]
          omega
        · intro j hj
          match j with
          | 0 =>
              left
              simpa using hnf
          | j + 1 =>
              rcases hfirst j (by omega) with h | h
              · left
                have hidx : e0 + 1 + j = e0 + (j + 1) := by omega
                rwa [hidx] at h
              · right
                omega
        · intro hT
          obtain ⟨hk'pos, hnan, hst⟩ := hpr hT
          refine ⟨by omega, ?_, ?_⟩
          · have hidx : e0 + 1 + (k' - 1) = e0 + (k' + 1 - 1) := by omega
            rwa [hidx] at hnan
          · rw [hst, tuneIterFrom_shift]
        · intro hF
          obtain ⟨hkf, hall, hst⟩ := hnp hF
          refine ⟨by omega, ?_, ?_⟩
          · intro j hj
            match j with
            | 0 => exact hnf
            | j + 1 =>
                have := hall j (by omega)
                have hidx : e0 + 1 + j = e0 + (j + 1) := by omega
                rwa [hidx] at this
          · rw [hst, tuneIterFrom_shift]

/-! ## Body-level characterizations -/

theorem dntnBody_no_improv {M O : Type} (train : ℕ → M × O → M × O)
    (vals : ℕ → FloatVal) (stateRec : List (String × Prim)) (e : ℕ)
    (s : DntnSt M O) :
    (dntnBody train vals stateRec e s).no_improv
      = if fleb (vals e) s.best_val_loss = true then 0 else s.no_improv + 1 := by
  unfold dntnBody
  by_cases h : fleb (vals e) s.best_val_loss = true <;> simp [h]

theorem dntnBody_policyView {M O : Type} (train : ℕ → M × O → M × O)
    (vals : ℕ → FloatVal) (stateRec : List (String × Prim)) (e : ℕ)
    (s : DntnSt M O) :
    (dntnBody train vals stateRec e s).policyView
      = bestSpecStep (vals e) e s.policyView := by
  unfold dntnBody bestSpecStep DntnSt.policyView
  by_cases h : fleb (vals e) s.best_val_loss = true <;> simp [h]

theorem dntnIter_policyView {M O : Type} (train : ℕ → M × O → M × O)
    (vals : ℕ → FloatVal) (stateRec : List (String × Prim)) (m0 : M) (o0 : O)
    (k : ℕ) :
    (dntnIter train vals stateRec m0 o0 k).policyView = bestSpecIter vals k := by
  induction k with
  | zero => rfl
  | succ k ih =>
      show (dntnBody train vals stateRec k _).policyView = _
      rw [dntnBody_policyView, ih]
      rfl

theorem tuneBody_ckptView {P O : Type} (train : ℕ → LTModel P × O → LTModel P × O)
    (vals : ℕ → FloatVal) (stateRec : List (String × Prim)) (monitor : MonitorTree)
    (e : ℕ) (s : TuneSt P O) (c : ℕ) :
    (tuneBody train vals stateRec monitor e s).ckptView
      = (bestSpecStep (vals e) e ⟨s.best_val_loss, s.best_e, s.saved, c⟩).ckptView := by
  unfold tuneBody bestSpecStep TuneSt.ckptView BestSpec.ckptView
  by_cases h : fleb (vals e) s.best_val_loss = true <;> simp [h]

theorem bestSpecStep_ckptView_congr (v : FloatVal) (e : ℕ) (t t' : BestSpec)
    (h : t.ckptView = t'.ckptView) :
    (bestSpecStep v e t).ckptView = (bestSpecStep v e t').ckptView := by
  unfold BestSpec.ckptView at h
  simp only [Prod.mk.injEq] at h
  obtain ⟨h1, h2, h3⟩ := h
  unfold bestSpecStep BestSpec.ckptView
  by_cases hb : fleb v t.best = true
  · rw [if_pos hb, if_pos (h1 ▸ hb)]
    simp [h3]
  · rw [if_neg hb, if_neg (fun hc => hb (h1 ▸ hc))]
    simp [h1, h2, h3]

theorem tuneIter_ckptView {P O : Type} (train : ℕ → LTModel P × O → LTModel P × O)
    (vals : ℕ → FloatVal) (stateRec : List (String × Prim)) (monitor : MonitorTree)
    (m0 : LTModel P) (o0 : O) (k : ℕ) :
    (tuneIter train vals stateRec monitor m0 o0 k).ckptView
      = (bestSpecIter vals k).ckptView := by
  induction k with
  | zero => rfl
  | succ k ih =>
      calc (tuneIter train vals stateRec monitor m0 o0 (k + 1)).ckptView
          = (bestSpecStep (vals k) k
              ⟨(tuneIter train vals stateRec monitor m0 o0 k).best_val_loss,
               (tuneIter train vals stateRec monitor m0 o0 k).best_e,
               (tuneIter train vals stateRec monitor m0 o0 k).saved,
               (bestSpecIter vals k).counter⟩).ckptView :=
            tuneBody_ckptView train vals stateRec monitor k _ _
        _ = (bestSpecStep (vals k) k (bestSpecIter vals k)).ckptView :=
            bestSpecStep_ckptView_congr _ _ _ _ ih
        _ = (bestSpecIter vals (k + 1)).ckptView := rfl

/-- A NaN validation metric fails the `<=` test, so the dntn.py epoch body
only trains and increments the counter. -/
theorem dntnBody_nan {M O : Type} (train : ℕ → M × O → M × O)
    (vals : ℕ → FloatVal) (stateRec : List (String × Prim)) (e : ℕ)
    (s : DntnSt M O) (h : fisnan (vals e) = true) :
    dntnBody train vals stateRec e s =
      { s with model := (train e (s.model, s.optimizer)).1,
               optimizer := (train e (s.model, s.optimizer)).2,
               no_improv := s.no_improv + 1 } := by
  have hf : fleb (vals e) s.best_val_loss = false := fleb_nan_iff _ _ h
  unfold dntnBody
  simp [hf]

/-- A NaN validation metric fails the `<=` test, so the objective's epoch body
only trains and appends the epoch's monitor write. -/
theorem tuneBody_nan {P O : Type} (train : ℕ → LTModel P × O → LTModel P × O)
    (vals : ℕ → FloatVal) (stateRec : List (String × Prim)) (monitor : MonitorTree)
    (e : ℕ) (s : TuneSt P O) (h : fisnan (vals e) = true) :
    tuneBody train vals stateRec monitor e s =
      { s with model := (train e (s.model, s.optimizer)).1,
               optimizer := (train e (s.model, s.optimizer)).2,
               log := s.log ++ [.write e
                 (monitor.write (train e (s.model, s.optimizer)).1 e false ["train"])] } := by
  have hf : fleb (vals e) s.best_val_loss = false := fleb_nan_iff _ _ h
  unfold tuneBody
  simp [hf]

theorem dntnBody_disk_isSome {M O : Type} (train : ℕ → M × O → M × O)
    (vals : ℕ → FloatVal) (stateRec : List (String × Prim)) (e : ℕ)
    (s : DntnSt M O) (h : s.disk.isSome = true) :
    (dntnBody train vals stateRec e s).disk.isSome = true := by
  unfold dntnBody
  by_cases hb : fleb (vals e) s.best_val_loss = true <;> simp [hb, h]

theorem tuneBody_disk_isSome {P O : Type} (train : ℕ → LTModel P × O → LTModel P × O)
    (vals : ℕ → FloatVal) (stateRec : List (String × Prim)) (monitor : MonitorTree)
    (e : ℕ) (s : TuneSt P O) (h : s.disk.isSome = true) :
    (tuneBody train vals stateRec monitor e s).disk.isSome = true := by
  unfold tuneBody
  by_cases hb : fleb (vals e) s.best_val_loss = true <;> simp [hb, h]

/-- If the first epoch's metric is not NaN it improves on `+infinity`, so
after one epoch body of dntn.py a checkpoint is on disk, and it stays there. -/
theorem dntnIter_disk_isSome {M O : Type} (train : ℕ → M × O → M × O)
    (vals : ℕ → FloatVal) (stateRec : List (String × Prim)) (m0 : M) (o0 : O)
    (h0 : fisnan (vals 0) = false) (k : ℕ) (hk : 0 < k) :
    (dntnIter train vals stateRec m0 o0 k).disk.isSome = true := by
  induction k with
  | zero => omega
  | succ k ih =>
      rcases Nat.eq_zero_or_pos k with hk0 | hkpos
      · subst hk0
        show (dntnBody train vals stateRec 0 (dntnInit m0 o0)).disk.isSome = true
        have hf : fleb (vals 0) FloatVal.inf = true := fleb_inf_of_not_nan _ h0
        unfold dntnBody
        simp [dntnInit, hf]
      · exact dntnBody_disk_isSome train vals stateRec k _ (ih hkpos)

theorem tuneIter_disk_isSome {P O : Type} (train : ℕ → LTModel P × O → LTModel P × O)
    (vals : ℕ → FloatVal) (stateRec : List (String × Prim)) (monitor : MonitorTree)
    (m0 : LTModel P) (o0 : O)
    (h0 : fisnan (vals 0) = false) (k : ℕ) (hk : 0 < k) :
    (tuneIter train vals stateRec monitor m0 o0 k).disk.isSome = true := by
  induction k with
  | zero => omega
  | succ k ih =>
      rcases Nat.eq_zero_or_pos k with hk0 | hkpos
      · subst hk0
        show (tuneBody train vals stateRec monitor 0 (tuneInit m0 o0)).disk.isSome = true
        have hf : fleb (vals 0) FloatVal.inf = true := fleb_inf_of_not_nan _ h0
        unfold tuneBody
        simp [tuneInit, hf]
      · exact tuneBody_disk_isSome train vals stateRec monitor k _ (ih hkpos)

theorem dntnBody_pos {M O : Type} (train : ℕ → M × O → M × O)
    (vals : ℕ → FloatVal) (stateRec : List (String × Prim)) (e : ℕ)
    (s : DntnSt M O) (h : fleb (vals e) s.best_val_loss = true) :
    dntnBody train vals stateRec e s =
      { s with model := (train e (s.model, s.optimizer)).1,
               optimizer := (train e (s.model, s.optimizer)).2,
               best_val_loss := vals e, best_e := (e : ℤ), no_improv := 0,
               disk := some (save_model (train e (s.model, s.optimizer)).1
                 (train e (s.model, s.optimizer)).2 stateRec e (vals e)),
               saved := s.saved ++ [(e, vals e)] } := by
  unfold dntnBody
  simp [h]

theorem dntnBody_neg {M O : Type} (train : ℕ → M × O → M × O)
    (vals : ℕ → FloatVal) (stateRec : List (String × Prim)) (e : ℕ)
    (s : DntnSt M O) (h : fleb (vals e) s.best_val_loss = false) :
    dntnBody train vals stateRec e s =
      { s with model := (train e (s.model, s.optimizer)).1,
               optimizer := (train e (s.model, s.optimizer)).2,
               no_improv := s.no_improv + 1 } := by
  unfold dntnBody
  simp [h]

/-- Disk invariant of the dntn.py loop: whatever checkpoint is on disk after
`k` epoch bodies was written with the dntn state record, at an epoch `< k`
that the loop still records as `best_e`, and its model is exactly the
in-memory model right after that epoch's training step. -/
theorem dntnIter_disk_inv {M O : Type} (train : ℕ → M × O → M × O)
    (vals : ℕ → FloatVal) (stateRec : List (String × Prim)) (m0 : M) (o0 : O) :
    ∀ (k : ℕ) (cp : Checkpoint M O),
      (dntnIter train vals stateRec m0 o0 k).disk = some cp →
      cp.model = (dntnIter train vals stateRec m0 o0 (cp.epoch + 1)).model ∧
      (dntnIter train vals stateRec m0 o0 k).best_e = (cp.epoch : ℤ) ∧
      cp.stateRec = stateRec ∧ cp.epoch < k ∧ cp.valMetric = vals cp.epoch := by
  intro k
  induction k with
  | zero =>
      intro cp hcp
      simp [dntnIter, dntnInit] at hcp
  | succ k ih =>
      intro cp hcp
      have hstep : dntnIter train vals stateRec m0 o0 (k + 1)
          = dntnBody train vals stateRec k (dntnIter train vals stateRec m0 o0 k) := rfl
      by_cases h : fleb (vals k) (dntnIter train vals stateRec m0 o0 k).best_val_loss = true
      · rw [hstep, dntnBody_pos train vals stateRec k _ h] at hcp
        simp only [Option.some.injEq] at hcp
        subst hcp
        simp only [save_model]
        refine ⟨?_, ?_, by trivial, by omega, by trivial⟩
        · rw [hstep, dntnBody_pos train vals stateRec k _ h]
        · rw [hstep, dntnBody_pos train vals stateRec k _ h]
      · rw [hstep, dntnBody_neg train vals stateRec k _ (by simpa using h)] at hcp ⊢
        obtain ⟨h1, h2, h3, h4, h5⟩ := ih cp hcp
        exact ⟨h1, h2, h3, by omega, h5⟩

/-- With `report_tree` left at its default `False`, `MonitorTree.write` emits
exactly the keyword metric groups, whatever the pruning flag. -/
theorem MonitorTree.write_default {P : Type} (m : MonitorTree) (model : LTModel P)
    (it : ℕ) (metrics : List String) :
    m.write model it false metrics = metrics.map WGroup.scalars := rfl

/-- Every epoch body of the objective appends exactly one monitor write: the
`train` scalar group of that epoch. -/
theorem tuneBody_log {P O : Type} (train : ℕ → LTModel P × O → LTModel P × O)
    (vals : ℕ → FloatVal) (stateRec : List (String × Prim)) (monitor : MonitorTree)
    (e : ℕ) (s : TuneSt P O) :
    (tuneBody train vals stateRec monitor e s).log
      = s.log ++ [.write e [WGroup.scalars "train"]] := by
  unfold tuneBody
  by_cases h : fleb (vals e) s.best_val_loss = true <;>
    simp [h, MonitorTree.write_default]

theorem tuneBody_disk_nan {P O : Type} (train : ℕ → LTModel P × O → LTModel P × O)
    (vals : ℕ → FloatVal) (stateRec : List (String × Prim)) (monitor : MonitorTree)
    (e : ℕ) (s : TuneSt P O) (h : fisnan (vals e) = true) :
    (tuneBody train vals stateRec monitor e s).disk = s.disk := by
  rw [tuneBody_nan train vals stateRec monitor e s h]

/-- Run-level correspondence for the objective's epoch loop: the executed
count is at most `epochs` (and positive when `epochs` is), a pruned run ends
right after the first NaN metric with the monitor closed on top of the
break-free iteration, and an unpruned run executes all epochs with no NaN
metric. -/
theorem tune_run_correspond {P O : Type} (epochs : ℕ)
    (train : ℕ → LTModel P × O → LTModel P × O) (vals : ℕ → FloatVal)
    (stateRec : List (String × Prim)) (monitor : MonitorTree)
    (m0 : LTModel P) (o0 : O) :
    (tuneLoopAux train vals stateRec monitor epochs 0 (tuneInit m0 o0)).2.1 ≤ epochs ∧
    (epochs ≠ 0 → 0 < (tuneLoopAux train vals stateRec monitor epochs 0 (tuneInit m0 o0)).2.1) ∧
    ((tuneLoopAux train vals stateRec monitor epochs 0 (tuneInit m0 o0)).2.2 = true →
      0 < (tuneLoopAux train vals stateRec monitor epochs 0 (tuneInit m0 o0)).2.1 ∧
      fisnan (vals ((tuneLoopAux train vals stateRec monitor epochs 0 (tuneInit m0 o0)).2.1 - 1)) = true ∧
      (∀ j, j + 1 < (tuneLoopAux train vals stateRec monitor epochs 0 (tuneInit m0 o0)).2.1 →
        fisnan (vals j) = false) ∧
      (tuneLoopAux train vals stateRec monitor epochs 0 (tuneInit m0 o0)).1 =
        { tuneIter train vals stateRec monitor m0 o0
            (tuneLoopAux train vals stateRec monitor epochs 0 (tuneInit m0 o0)).2.1 with
          log := (tuneIter train vals stateRec monitor m0 o0
            (tuneLoopAux train vals stateRec monitor epochs 0 (tuneInit m0 o0)).2.1).log ++ [.close] }) ∧
    ((tuneLoopAux train vals stateRec monitor epochs 0 (tuneInit m0 o0)).2.2 = false →
      (tuneLoopAux train vals stateRec monitor epochs 0 (tuneInit m0 o0)).2.1 = epochs ∧
      (∀ j, j < epochs → fisnan (vals j) = false) ∧
      (tuneLoopAux train vals stateRec monitor epochs 0 (tuneInit m0 o0)).1 =
        tuneIter train vals stateRec monitor m0 o0
          (tuneLoopAux train vals stateRec monitor epochs 0 (tuneInit m0 o0)).2.1) := by
  obtain ⟨k, hcnt, hkle, hkpos, hfirst, hpr, hnp⟩ :=
    tune_loop_correspond train vals stateRec monitor epochs 0 (tuneInit m0 o0)
  have hcnt' : (tuneLoopAux train vals stateRec monitor epochs 0 (tuneInit m0 o0)).2.1 = k := by
    omega
  rw [hcnt']
  refine ⟨by omega, fun h => by omega, ?_, ?_⟩
  · intro hT
    obtain ⟨hk0, hnan, hst⟩ := hpr hT
    refine ⟨hk0, ?_, ?_, ?_⟩
    · have hz : (0 : ℕ) + (k - 1) = k - 1 := by omega
      rwa [hz] at hnan
    · intro j hj
      rcases hfirst j (by omega) with h | h
      · rwa [Nat.zero_add] at h
      · omega
    · rw [hst, tuneIter_eq_iterFrom]
  · intro hF
    obtain ⟨hkf, hall, hst⟩ := hnp hF
    refine ⟨by omega, ?_, ?_⟩
    · intro j hj
      have := hall j (by omega)
      rwa [Nat.zero_add] at this
    · rw [hst, tuneIter_eq_iterFrom]

/-! ## Claims -/

/-- C1.  Best-checkpoint policy: in each training loop (dntn.py per seed,
tune_clustering.py per trial), the running minimum of the validation metric
starts at +infinity; in every epoch whose metric is `<=` the running minimum
the checkpoint is persisted and the running minimum and best-epoch are
updated to that epoch's values, with the no-improvement counter reset to 0
in dntn.py; in every other epoch no checkpoint is written.  Stated as: every
break-free iterate, and the final state of each actual loop, agree with the
policy `bestSpecIter` written from the spec's words (for dntn.py including
the counter; the objective keeps no counter). -/
theorem best_checkpoint_policy {M O P O2 : Type} (epochs : ℕ)
    (train : ℕ → M × O → M × O) (vals : ℕ → FloatVal)
    (stateRec : List (String × Prim)) (m0 : M) (o0 : O)
    (train2 : ℕ → LTModel P × O2 → LTModel P × O2) (vals2 : ℕ → FloatVal)
    (stateRec2 : List (String × Prim)) (monitor : MonitorTree)
    (m02 : LTModel P) (o02 : O2) :
    (∀ k, (dntnIter train vals stateRec m0 o0 k).policyView = bestSpecIter vals k)
    ∧ (∀ k, (tuneIter train2 vals2 stateRec2 monitor m02 o02 k).ckptView
          = (bestSpecIter vals2 k).ckptView)
    ∧ (dntnRun epochs train vals stateRec m0 o0).1.policyView
        = bestSpecIter vals (dntnRun epochs train vals stateRec m0 o0).2
    ∧ (tuneLoopAux train2 vals2 stateRec2 monitor epochs 0 (tuneInit m02 o02)).1.ckptView
        = (bestSpecIter vals2
            (tuneLoopAux train2 vals2 stateRec2 monitor epochs 0 (tuneInit m02 o02)).2.1).ckptView := by
  refine ⟨dntnIter_policyView train vals stateRec m0 o0,
          tuneIter_ckptView train2 vals2 stateRec2 monitor m02 o02, ?_, ?_⟩
  · obtain ⟨h1, _, _, _, _⟩ := dntn_run_correspond epochs train vals stateRec m0 o0
    rw [h1, dntnIter_policyView]
  · obtain ⟨_, _, hpr, hnp⟩ := tune_run_correspond epochs train2 vals2 stateRec2 monitor m02 o02
    by_cases hf : (tuneLoopAux train2 vals2 stateRec2 monitor epochs 0 (tuneInit m02 o02)).2.2 = true
    · obtain ⟨_, _, _, hst⟩ := hpr hf
      rw [hst]
      rw [show ({ tuneIter train2 vals2 stateRec2 monitor m02 o02
            (tuneLoopAux train2 vals2 stateRec2 monitor epochs 0 (tuneInit m02 o02)).2.1 with
          log := (tuneIter train2 vals2 stateRec2 monitor m02 o02
            (tuneLoopAux train2 vals2 stateRec2 monitor epochs 0 (tuneInit m02 o02)).2.1).log
              ++ [.close] } : TuneSt P O2).ckptView
        = (tuneIter train2 vals2 stateRec2 monitor m02 o02
            (tuneLoopAux train2 vals2 stateRec2 monitor epochs 0 (tuneInit m02 o02)).2.1).ckptView
        from rfl]
      exact tuneIter_ckptView train2 vals2 stateRec2 monitor m02 o02 _
    · obtain ⟨_, _, hst⟩ := hnp (by simpa using hf)
      rw [hst]
      exact tuneIter_ckptView train2 vals2 stateRec2 monitor m02 o02 _

/-- C2.  Early-stop counter invariant of dntn.py's epoch loop: each epoch the
counter is incremented once and then reset to 0 exactly when the metric is
tie-or-better (so its end-of-epoch value is 0 on improvement and old+1
otherwise); the executed loop is a prefix of the break-free iteration; the
break test fails after every executed epoch except the last; and the loop
exits early (before `epochs` epochs) exactly when the end-of-epoch check
finds the counter equal to `EPOCHS // 5`. -/
theorem early_stop_counter_invariant {M O : Type} (epochs : ℕ)
    (train : ℕ → M × O → M × O) (vals : ℕ → FloatVal)
    (stateRec : List (String × Prim)) (m0 : M) (o0 : O) :
    (∀ k, (dntnIter train vals stateRec m0 o0 (k + 1)).no_improv
        = if fleb (vals k) (dntnIter train vals stateRec m0 o0 k).best_val_loss = true
          then 0 else (dntnIter train vals stateRec m0 o0 k).no_improv + 1)
    ∧ (dntnRun epochs train vals stateRec m0 o0).1
        = dntnIter train vals stateRec m0 o0 (dntnRun epochs train vals stateRec m0 o0).2
    ∧ (dntnRun epochs train vals stateRec m0 o0).2 ≤ epochs
    ∧ (∀ j, j + 1 < (dntnRun epochs train vals stateRec m0 o0).2 →
        (dntnIter train vals stateRec m0 o0 (j + 1)).no_improv ≠ epochs / 5)
    ∧ ((dntnRun epochs train vals stateRec m0 o0).2 < epochs →
        (dntnIter train vals stateRec m0 o0
          (dntnRun epochs train vals stateRec m0 o0).2).no_improv = epochs / 5) := by
  obtain ⟨h1, h2, _, h4, h5⟩ := dntn_run_correspond epochs train vals stateRec m0 o0
  exact ⟨fun k => dntnBody_no_improv train vals stateRec k _, h1, h2, h4, h5⟩

/-- C2 witness: with `epochs = 10` and an always-NaN metric the loop breaks
after two epochs with the counter at `10 / 5 = 2`. -/
theorem early_stop_counter_invariant_witness :
    (dntnRun 10 (fun _ (mo : Unit × Unit) => mo) (fun _ => FloatVal.nan) [] () ()).2 < 10 ∧
    (dntnIter (fun _ (mo : Unit × Unit) => mo) (fun _ => FloatVal.nan) [] () ()
      (dntnRun 10 (fun _ (mo : Unit × Unit) => mo) (fun _ => FloatVal.nan) [] () ()).2).no_improv
      = 10 / 5 :=
  ⟨by decide,
   (early_stop_counter_invariant 10 (fun _ (mo : Unit × Unit) => mo)
      (fun _ => FloatVal.nan) [] () ()).2.2.2.2 (by decide)⟩

/-- C3 counterexample.  The claim "for every total_epochs < 10 the early-stop
rule stops the loop after the very first epoch, for any metric sequence" is
false: with `total_epochs = 5` and the constant metric `1`, every epoch is
tie-or-better, the counter is reset to 0 each epoch and never reaches
`5 // 5 = 1`, so the loop runs all 5 epochs. -/
theorem early_stop_degenerate_counterexample :
    5 < 10 ∧
    (dntnRun 5 (fun _ (mo : Unit × Unit) => mo) (fun _ => FloatVal.num 1) [] () ()).2 = 5 ∧
    (5 : ℕ) ≠ 1 :=
  ⟨by omega, by decide, by omega⟩

/-- C3 amended.  For every total epoch count with `0 < total_epochs < 5`
(so `total_epochs // 5 = 0`), if the first epoch's validation metric is not
NaN then the loop stops after the very first epoch: the first metric improves
on +infinity, the counter is reset to `0 = total_epochs // 5`, and the break
fires at the first end-of-epoch check.  (For `5 <= total_epochs < 10` the
rule instead stops at the first non-improving epoch, and a NaN first metric
defeats the break as well, so the original claim's bound of 10 and its "any
sequence" are both too strong.) -/
theorem early_stop_degenerate {M O : Type} (epochs : ℕ)
    (train : ℕ → M × O → M × O) (vals : ℕ → FloatVal)
    (stateRec : List (String × Prim)) (m0 : M) (o0 : O)
    (h1 : 0 < epochs) (h2 : epochs < 5) (h3 : fisnan (vals 0) = false) :
    (dntnRun epochs train vals stateRec m0 o0).2 = 1 := by
  obtain ⟨f, rfl⟩ : ∃ f, epochs = f + 1 := ⟨epochs - 1, by omega⟩
  unfold dntnRun
  rw [dntnLoopAux_succ]
  have h5 : (f + 1) / 5 = 0 := Nat.div_eq_of_lt (by omega)
  have hni : (dntnBody train vals stateRec 0 (dntnInit m0 o0)).no_improv = 0 := by
    rw [dntnBody_no_improv]
    rw [show (dntnInit m0 o0 : DntnSt M O).best_val_loss = .inf from rfl]
    rw [if_pos (fleb_inf_of_not_nan _ h3)]
  rw [if_pos (by rw [hni, h5])]

/-- C3 witness for the amended statement: `total_epochs = 2` with the
constant metric `1` stops after one epoch. -/
theorem early_stop_degenerate_witness :
    ((0 : ℕ) < 2 ∧ (2 : ℕ) < 5 ∧ fisnan ((fun _ => FloatVal.num 1) 0) = false) ∧
    (dntnRun 2 (fun _ (mo : Unit × Unit) => mo) (fun _ => FloatVal.num 1) [] () ()).2 = 1 :=
  ⟨⟨by omega, by omega, by decide⟩,
   early_stop_degenerate 2 (fun _ (mo : Unit × Unit) => mo) (fun _ => FloatVal.num 1)
     [] () () (by omega) (by omega) (by decide)⟩

/-- C7.  State record contents: the flat `state` record written into every
checkpoint maps string keys to primitive values; dntn.py's record has exactly
the keys batch size, loss-function name, learning rate, seed and dataset
name (with the seed and dataset stored as given), and tune_clustering.py's
record has exactly those five keys plus the regularization weight `reg` and
the split-function flag `linear` (stored as `True`). -/
theorem state_record_contents (seed : ℤ) (dataName : String)
    (batchSize : ℤ) (reg : ℚ) :
    (dntnStateRecord seed dataName).map Prod.fst
        = ["batch-size", "loss-function", "learning-rate", "seed", "dataset"]
    ∧ (tuneStateRecord batchSize reg).map Prod.fst
        = ["batch-size", "loss-function", "learning-rate", "seed", "dataset",
           "reg", "linear"]
    ∧ (dntnStateRecord seed dataName).lookup "seed" = some (.int seed)
    ∧ (dntnStateRecord seed dataName).lookup "dataset" = some (.str dataName)
    ∧ (tuneStateRecord batchSize reg).lookup "batch-size" = some (.int batchSize)
    ∧ (tuneStateRecord batchSize reg).lookup "reg" = some (.rat reg)
    ∧ (tuneStateRecord batchSize reg).lookup "linear" = some (.bool true) := by
  refine ⟨rfl, rfl, ?_, ?_, ?_, ?_, ?_⟩ <;> rfl

/-- C10.  `MonitorTree.write` emits the tree-statistics groups (the eta-norm
group and the d-norm group, in that order, before everything else) exactly
when both its `report_tree` argument and the monitor's `pruning` flag (set
at construction) are true, and in every case it emits one scalar group per
keyword metric, in order. -/
theorem monitor_write_conditionality {P : Type} (m : MonitorTree)
    (model : LTModel P) (it : ℕ) (report_tree : Bool) (metrics : List String) :
    ((report_tree && m.pruning) = true →
      m.write model it report_tree metrics =
        [WGroup.etaGroup (normLinf model.latent_tree.eta)
            (normL1 model.latent_tree.eta)
            (normL0 (model.latent_tree.eta.map clamp01)),
         WGroup.dGroup (normL0 (model.latent_tree.d.map clamp01))]
          ++ metrics.map WGroup.scalars)
    ∧ ((report_tree && m.pruning) = false →
        m.write model it report_tree metrics = metrics.map WGroup.scalars)
    ∧ (∀ key ∈ metrics, WGroup.scalars key ∈ m.write model it report_tree metrics) := by
  refine ⟨?_, ?_, ?_⟩
  · intro h
    unfold MonitorTree.write
    rw [if_pos h]
  · intro h
    unfold MonitorTree.write
    rw [if_neg (by simp [h])]
    rfl
  · intro key hk
    unfold MonitorTree.write
    by_cases h : (report_tree && m.pruning) = true
    · rw [if_pos h]
      exact List.mem_append_right _ (List.mem_map_of_mem _ hk)
    · rw [if_neg h]
      exact List.mem_append_right _ (List.mem_map_of_mem _ hk)

/-- C10 witness: a pruning monitor with `report_tree = true` on the latent
tree with `eta = [1, -2]`, `d = [0, 1]` emits the two tree groups
(`linf = 2`, `l1 = 3`, clamped `l0 = 1`; clamped `l0 = 1`) followed by the
`train` scalar group; with `report_tree = false` only the `train` group. -/
theorem monitor_write_conditionality_witness :
    (MonitorTree.mk true).write
        (⟨⟨[1, -2], [0, 1]⟩, ()⟩ : LTModel Unit) 0 true ["train"]
      = [WGroup.etaGroup 2 3 1, WGroup.dGroup 1, WGroup.scalars "train"]
    ∧ (MonitorTree.mk true).write
        (⟨⟨[1, -2], [0, 1]⟩, ()⟩ : LTModel Unit) 0 false ["train"]
      = [WGroup.scalars "train"]
    ∧ WGroup.scalars "train" ∈ (MonitorTree.mk true).write
        (⟨⟨[1, -2], [0, 1]⟩, ()⟩ : LTModel Unit) 0 true ["train"] := by
  refine ⟨?_, ?_, ?_⟩
  · rw [(monitor_write_conditionality (MonitorTree.mk true)
      (⟨⟨[1, -2], [0, 1]⟩, ()⟩ : LTModel Unit) 0 true ["train"]).1 (by decide)]
    simp [normLinf, normL1, normL0, clamp01]
    norm_num
  · exact (monitor_write_conditionality (MonitorTree.mk true)
      (⟨⟨[1, -2], [0, 1]⟩, ()⟩ : LTModel Unit) 0 false ["train"]).2.1 (by decide)
  · exact (monitor_write_conditionality (MonitorTree.mk true)
      (⟨⟨[1, -2], [0, 1]⟩, ()⟩ : LTModel Unit) 0 true ["train"]).2.2 "train" (by decide)

/-- C8.  CLI surface of dntn.py: the script reads exactly the two positional
arguments `sys.argv[1]` (dataset name, used as-is) and `int(sys.argv[2])`
(worker count) with no validation; with fewer than two user arguments
(`argv` shorter than three entries including the script name) it fails with
`IndexError` before any training, with a second argument `int()` rejects it
fails with `ValueError` before any training, and otherwise the parsed pair
is exactly `(argv[1], int(argv[2]))` and training proceeds with the dataset
name stored as-is in the state record. -/
theorem cli_surface_dntn {M O : Type} (epochs : ℕ) (seed : ℤ)
    (train : ℕ → M × O → M × O) (vals : ℕ → FloatVal) (m0 : M) (o0 : O)
    (evalTest : M → FloatVal) :
    (∀ argv : List String, argv.length < 3 →
        dntnMain argv epochs seed train vals m0 o0 evalTest = .error .indexError)
    ∧ (∀ (a d w : String) (rest : List String), pyInt w = none →
        dntnMain (a :: d :: w :: rest) epochs seed train vals m0 o0 evalTest
          = .error .valueError)
    ∧ (∀ (a d w : String) (rest : List String) (n : ℤ), pyInt w = some n →
        parseArgs (a :: d :: w :: rest) = .ok (d, n)
        ∧ dntnMain (a :: d :: w :: rest) epochs seed train vals m0 o0 evalTest
            = .ok (dntnFullRun epochs train vals (dntnStateRecord seed d) m0 o0 evalTest)) := by
  refine ⟨?_, ?_, ?_⟩
  · intro argv hlen
    match argv with
    | [] => rfl
    | [a] => rfl
    | [a, d] => rfl
    | a :: d :: w :: rest =>
        exact absurd hlen (by simp)
  · intro a d w rest h
    unfold dntnMain parseArgs
    simp only [List.get?]
    rw [h]
  · intro a d w rest n h
    constructor
    · unfold parseArgs
      simp only [List.get?]
      rw [h]
    · unfold dntnMain parseArgs
      simp only [List.get?]
      rw [h]

/-- C6.  A NaN validation metric never causes a checkpoint save: in both
loops, an epoch whose metric is NaN fails the `<=` test, so the epoch leaves
the running minimum, best epoch, save trace and on-disk checkpoint untouched
(dntn.py additionally increments the no-improvement counter); consequently,
when a trial is pruned, the checkpoint on disk is the one left by the
non-NaN prefix before the NaN epoch. -/
theorem nan_never_checkpoints {M O P O2 : Type} (epochs : ℕ)
    (train : ℕ → M × O → M × O) (vals : ℕ → FloatVal)
    (stateRec : List (String × Prim))
    (train2 : ℕ → LTModel P × O2 → LTModel P × O2) (vals2 : ℕ → FloatVal)
    (stateRec2 : List (String × Prim)) (monitor : MonitorTree)
    (m02 : LTModel P) (o02 : O2) :
    (∀ (e : ℕ) (s : DntnSt M O), fisnan (vals e) = true →
        (dntnBody train vals stateRec e s).best_val_loss = s.best_val_loss
        ∧ (dntnBody train vals stateRec e s).best_e = s.best_e
        ∧ (dntnBody train vals stateRec e s).disk = s.disk
        ∧ (dntnBody train vals stateRec e s).saved = s.saved
        ∧ (dntnBody train vals stateRec e s).no_improv = s.no_improv + 1)
    ∧ (∀ (e : ℕ) (s : TuneSt P O2), fisnan (vals2 e) = true →
        (tuneBody train2 vals2 stateRec2 monitor e s).best_val_loss = s.best_val_loss
        ∧ (tuneBody train2 vals2 stateRec2 monitor e s).best_e = s.best_e
        ∧ (tuneBody train2 vals2 stateRec2 monitor e s).disk = s.disk
        ∧ (tuneBody train2 vals2 stateRec2 monitor e s).saved = s.saved)
    ∧ ((tuneLoopAux train2 vals2 stateRec2 monitor epochs 0 (tuneInit m02 o02)).2.2 = true →
        (tuneLoopAux train2 vals2 stateRec2 monitor epochs 0 (tuneInit m02 o02)).1.disk
          = (tuneIter train2 vals2 stateRec2 monitor m02 o02
              ((tuneLoopAux train2 vals2 stateRec2 monitor epochs 0 (tuneInit m02 o02)).2.1 - 1)).disk) := by
  refine ⟨?_, ?_, ?_⟩
  · intro e s h
    rw [dntnBody_nan train vals stateRec e s h]
    exact ⟨rfl, rfl, rfl, rfl, rfl⟩
  · intro e s h
    rw [tuneBody_nan train2 vals2 stateRec2 monitor e s h]
    exact ⟨rfl, rfl, rfl, rfl⟩
  · intro hf
    obtain ⟨hpos, hnan, _, hst⟩ :=
      (tune_run_correspond epochs train2 vals2 stateRec2 monitor m02 o02).2.2.1 hf
    have key : ∀ t, 0 < t → fisnan (vals2 (t - 1)) = true →
        (tuneIter train2 vals2 stateRec2 monitor m02 o02 t).disk
          = (tuneIter train2 vals2 stateRec2 monitor m02 o02 (t - 1)).disk := by
      intro t ht hn
      obtain ⟨u, rfl⟩ : ∃ u, t = u + 1 := ⟨t - 1, by omega⟩
      simp only [Nat.add_sub_cancel] at hn ⊢
      exact tuneBody_disk_nan train2 vals2 stateRec2 monitor u _ hn
    rw [hst]
    exact key _ hpos hnan

/-- C6 witness: one NaN epoch on a fresh dntn state, and a trial whose second
epoch goes NaN (the on-disk checkpoint at pruning is the epoch-0 one). -/
theorem nan_never_checkpoints_witness :
    (dntnBody (fun _ (mo : Unit × Unit) => mo) (fun _ => FloatVal.nan) [] 0
        (dntnInit () ())).disk = (dntnInit () () : DntnSt Unit Unit).disk
    ∧ (tuneLoopAux (fun _ (mo : LTModel Unit × Unit) => mo)
        (fun e => if e = 0 then FloatVal.num 1 else FloatVal.nan) [] ⟨true⟩ 3 0
        (tuneInit ⟨⟨[], []⟩, ()⟩ ())).1.disk
      = (tuneIter (fun _ (mo : LTModel Unit × Unit) => mo)
          (fun e => if e = 0 then FloatVal.num 1 else FloatVal.nan) [] ⟨true⟩
          ⟨⟨[], []⟩, ()⟩ ()
          ((tuneLoopAux (fun _ (mo : LTModel Unit × Unit) => mo)
            (fun e => if e = 0 then FloatVal.num 1 else FloatVal.nan) [] ⟨true⟩ 3 0
            (tuneInit ⟨⟨[], []⟩, ()⟩ ())).2.1 - 1)).disk := by
  constructor
  · exact ((nan_never_checkpoints 1 (fun _ (mo : Unit × Unit) => mo)
      (fun _ => FloatVal.nan) [] (fun _ (mo : LTModel Unit × Unit) => mo)
      (fun _ => FloatVal.nan) [] ⟨true⟩ ⟨⟨[], []⟩, ()⟩ ()).1 0
      (dntnInit () ()) (by decide)).2.2.1
  · exact (nan_never_checkpoints 3 (fun _ (mo : Unit × Unit) => mo)
      (fun _ => FloatVal.nan) [] (fun _ (mo : LTModel Unit × Unit) => mo)
      (fun e => if e = 0 then FloatVal.num 1 else FloatVal.nan) [] ⟨true⟩
      ⟨⟨[], []⟩, ()⟩ ()).2.2 (by decide)

/-- C9.  First-epoch checkpoint guarantee: if the first epoch's validation
metric is not NaN it satisfies the improvement test against the initial
+infinity, so both loops persist a checkpoint in epoch 0 which is never
erased: dntn.py's post-loop `DNDT.load_model` finds a checkpoint written by
this run (so the full run returns a test result instead of the
missing-checkpoint failure), and the objective never hits the
missing-checkpoint path. -/
theorem first_epoch_checkpoint {M O P O2 : Type} (epochs : ℕ)
    (train : ℕ → M × O → M × O) (vals : ℕ → FloatVal)
    (stateRec : List (String × Prim)) (m0 : M) (o0 : O) (evalTest : M → FloatVal)
    (train2 : ℕ → LTModel P × O2 → LTModel P × O2) (vals2 : ℕ → FloatVal)
    (stateRec2 : List (String × Prim)) (monitor : MonitorTree)
    (m02 : LTModel P) (o02 : O2) (purity : LTModel P → ℚ)
    (hep : 0 < epochs) (h1 : fisnan (vals 0) = false) (h2 : fisnan (vals2 0) = false) :
    fleb (vals 0) .inf = true
    ∧ (dntnRun epochs train vals stateRec m0 o0).1.disk.isSome = true
    ∧ (∃ q, dntnFullRun epochs train vals stateRec m0 o0 evalTest = .ok q)
    ∧ (tuneObjective epochs train2 vals2 stateRec2 monitor m02 o02 purity).2
        ≠ .loadFailure := by
  obtain ⟨hr1, _, hr3, _, _⟩ := dntn_run_correspond epochs train vals stateRec m0 o0
  have hsome : (dntnRun epochs train vals stateRec m0 o0).1.disk.isSome = true := by
    rw [hr1]
    exact dntnIter_disk_isSome train vals stateRec m0 o0 h1 _ (hr3 (by omega))
  refine ⟨fleb_inf_of_not_nan _ h1, hsome, ?_, ?_⟩
  · obtain ⟨cp, hcp⟩ := Option.isSome_iff_exists.mp hsome
    refine ⟨evalTest cp.model, ?_⟩
    simp only [dntnFullRun]
    rw [hcp]
    rfl
  · by_cases hf : (tuneLoopAux train2 vals2 stateRec2 monitor epochs 0 (tuneInit m02 o02)).2.2 = true
    · simp [tuneObjective, hf]
    · have hf' : (tuneLoopAux train2 vals2 stateRec2 monitor epochs 0 (tuneInit m02 o02)).2.2 = false := by
        simpa using hf
      obtain ⟨hT, _, hst⟩ :=
        (tune_run_correspond epochs train2 vals2 stateRec2 monitor m02 o02).2.2.2 hf'
      have hsome2 : (tuneLoopAux train2 vals2 stateRec2 monitor epochs 0 (tuneInit m02 o02)).1.disk.isSome = true := by
        rw [hst, hT]
        exact tuneIter_disk_isSome train2 vals2 stateRec2 monitor m02 o02 h2 epochs hep
      obtain ⟨cp, hcp⟩ := Option.isSome_iff_exists.mp hsome2
      simp [tuneObjective, hf', hcp]

/-- C9 witness: one epoch with metric `1` in both loops. -/
theorem first_epoch_checkpoint_witness :
    (dntnRun 1 (fun _ (mo : Unit × Unit) => mo) (fun _ => FloatVal.num 1)
        [] () ()).1.disk.isSome = true
    ∧ (tuneObjective 1 (fun _ (mo : LTModel Unit × Unit) => mo)
        (fun _ => FloatVal.num 1) [] ⟨true⟩ ⟨⟨[], []⟩, ()⟩ ()
        (fun _ => 0)).2 ≠ .loadFailure := by
  have h := first_epoch_checkpoint 1 (fun _ (mo : Unit × Unit) => mo)
    (fun _ => FloatVal.num 1) [] () () (fun _ => FloatVal.num 0)
    (fun _ (mo : LTModel Unit × Unit) => mo) (fun _ => FloatVal.num 1) [] ⟨true⟩
    ⟨⟨[], []⟩, ()⟩ () (fun _ => 0) (by omega) (by decide) (by decide)
  exact ⟨h.2.1, h.2.2.2⟩

/-- C4.  NaN-abort policy of the objective: if some epoch's validation MSE is
NaN then the trial is pruned — the monitor is closed right after that epoch's
checkpoint test and learning-rate-step monitor write (the log ends with that
epoch's `train` write followed by the close/flush), and no score is returned;
if no epoch's MSE is NaN the objective returns the dendrogram-purity score of
the reloaded model and the monitor log still ends with a close. -/
theorem nan_abort_policy {P O : Type} (epochs : ℕ)
    (train : ℕ → LTModel P × O → LTModel P × O) (vals : ℕ → FloatVal)
    (stateRec : List (String × Prim)) (monitor : MonitorTree)
    (m0 : LTModel P) (o0 : O) (purity : LTModel P → ℚ) :
    ((∃ e, e < epochs ∧ fisnan (vals e) = true) →
        (tuneObjective epochs train vals stateRec monitor m0 o0 purity).2 = .pruned
        ∧ ∃ (l : List MEvent) (e : ℕ), fisnan (vals e) = true ∧
            (tuneObjective epochs train vals stateRec monitor m0 o0 purity).1.log
              = l ++ [.write e [WGroup.scalars "train"], .close])
    ∧ ((∀ e, e < epochs → fisnan (vals e) = false) → 0 < epochs →
        (tuneObjective epochs train vals stateRec monitor m0 o0 purity).2
            = .score (purity
                (tuneObjective epochs train vals stateRec monitor m0 o0 purity).1.model)
        ∧ (tuneObjective epochs train vals stateRec monitor m0 o0 purity).1.log.getLast?
            = some MEvent.close) := by
  constructor
  · intro ⟨e, he, hnan⟩
    have hf : (tuneLoopAux train vals stateRec monitor epochs 0 (tuneInit m0 o0)).2.2 = true := by
      by_contra hc
      have hc' : (tuneLoopAux train vals stateRec monitor epochs 0 (tuneInit m0 o0)).2.2 = false := by
        simpa using hc
      obtain ⟨_, hall, _⟩ :=
        (tune_run_correspond epochs train vals stateRec monitor m0 o0).2.2.2 hc'
      rw [hall e he] at hnan
      exact Bool.false_ne_true hnan
    obtain ⟨hpos, hnanT, _, hst⟩ :=
      (tune_run_correspond epochs train vals stateRec monitor m0 o0).2.2.1 hf
    have hobj : tuneObjective epochs train vals stateRec monitor m0 o0 purity
        = ((tuneLoopAux train vals stateRec monitor epochs 0 (tuneInit m0 o0)).1, .pruned) := by
      simp [tuneObjective, hf]
    rw [hobj]
    refine ⟨rfl, ?_⟩
    obtain ⟨u, hu⟩ : ∃ u, (tuneLoopAux train vals stateRec monitor epochs 0 (tuneInit m0 o0)).2.1
        = u + 1 :=
      ⟨(tuneLoopAux train vals stateRec monitor epochs 0 (tuneInit m0 o0)).2.1 - 1, by omega⟩
    refine ⟨(tuneIter train vals stateRec monitor m0 o0 u).log, u, ?_, ?_⟩
    · rw [hu] at hnanT
      simpa using hnanT
    · show (tuneLoopAux train vals stateRec monitor epochs 0 (tuneInit m0 o0)).1.log = _
      rw [hst, hu]
      show (tuneIter train vals stateRec monitor m0 o0 (u + 1)).log ++ [MEvent.close] = _
      rw [show tuneIter train vals stateRec monitor m0 o0 (u + 1)
            = tuneBody train vals stateRec monitor u
                (tuneIter train vals stateRec monitor m0 o0 u) from rfl,
          tuneBody_log]
      rw [List.append_assoc]
      rfl
  · intro hall hep
    have hf' : (tuneLoopAux train vals stateRec monitor epochs 0 (tuneInit m0 o0)).2.2 = false := by
      by_contra hc
      have hc' : (tuneLoopAux train vals stateRec monitor epochs 0 (tuneInit m0 o0)).2.2 = true := by
        simpa using hc
      obtain ⟨hpos, hnanT, _, _⟩ :=
        (tune_run_correspond epochs train vals stateRec monitor m0 o0).2.2.1 hc'
      have hle := (tune_run_correspond epochs train vals stateRec monitor m0 o0).1
      have := hall _ (show (tuneLoopAux train vals stateRec monitor epochs 0 (tuneInit m0 o0)).2.1 - 1 < epochs by omega)
      rw [this] at hnanT
      exact Bool.false_ne_true hnanT
    obtain ⟨hT, _, hst⟩ :=
      (tune_run_correspond epochs train vals stateRec monitor m0 o0).2.2.2 hf'
    have hsome : (tuneLoopAux train vals stateRec monitor epochs 0 (tuneInit m0 o0)).1.disk.isSome = true := by
      rw [hst, hT]
      exact tuneIter_disk_isSome train vals stateRec monitor m0 o0
        (hall 0 hep) epochs hep
    obtain ⟨cp, hcp⟩ := Option.isSome_iff_exists.mp hsome
    have hobj : tuneObjective epochs train vals stateRec monitor m0 o0 purity
        = ({ (tuneLoopAux train vals stateRec monitor epochs 0 (tuneInit m0 o0)).1 with
              model := cp.model,
              log := (tuneLoopAux train vals stateRec monitor epochs 0 (tuneInit m0 o0)).1.log ++
                [.write (epochs - 1) (monitor.write cp.model (epochs - 1) false ["val"]),
                 .close] },
           .score (purity cp.model)) := by
      simp [tuneObjective, hf', hcp]
    rw [hobj]
    exact ⟨rfl, by rw [List.getLast?_append_cons]; rfl⟩

/-- C4 witness: a single all-NaN epoch prunes the trial; a single non-NaN
epoch returns the purity score of the reloaded model. -/
theorem nan_abort_policy_witness :
    (tuneObjective 1 (fun _ (mo : LTModel Unit × Unit) => mo) (fun _ => FloatVal.nan)
        [] ⟨true⟩ ⟨⟨[], []⟩, ()⟩ () (fun _ => 0)).2 = .pruned
    ∧ (tuneObjective 1 (fun _ (mo : LTModel Unit × Unit) => mo) (fun _ => FloatVal.num 1)
        [] ⟨true⟩ ⟨⟨[], []⟩, ()⟩ () (fun _ => 0)).2 = .score 0 := by
  constructor
  · exact ((nan_abort_policy 1 (fun _ (mo : LTModel Unit × Unit) => mo)
      (fun _ => FloatVal.nan) [] ⟨true⟩ ⟨⟨[], []⟩, ()⟩ () (fun _ => 0)).1
      ⟨0, by omega, by decide⟩).1
  · exact ((nan_abort_policy 1 (fun _ (mo : LTModel Unit × Unit) => mo)
      (fun _ => FloatVal.num 1) [] ⟨true⟩ ⟨⟨[], []⟩, ()⟩ () (fun _ => 0)).2
      (fun e he => by decide) (by omega)).1

/-- C5.  Reload-best for final evaluation: whatever checkpoint dntn.py's loop
leaves on disk, the post-loop evaluation result is exactly `evalTest` of the
model stored in that checkpoint — the model state right after the best
epoch's training step, which the loop still records as `best_e` — and not of
the final in-memory model; likewise a trial that returns a score returns the
dendrogram purity of the model reloaded from the checkpoint, which also
replaces the in-memory model. -/
theorem reload_best_final_eval {M O P O2 : Type} (epochs : ℕ)
    (train : ℕ → M × O → M × O) (vals : ℕ → FloatVal)
    (stateRec : List (String × Prim)) (m0 : M) (o0 : O) (evalTest : M → FloatVal)
    (train2 : ℕ → LTModel P × O2 → LTModel P × O2) (vals2 : ℕ → FloatVal)
    (stateRec2 : List (String × Prim)) (monitor : MonitorTree)
    (m02 : LTModel P) (o02 : O2) (purity : LTModel P → ℚ) :
    (∀ cp : Checkpoint M O,
        (dntnRun epochs train vals stateRec m0 o0).1.disk = some cp →
        dntnFullRun epochs train vals stateRec m0 o0 evalTest = .ok (evalTest cp.model)
        ∧ cp.model = (dntnIter train vals stateRec m0 o0 (cp.epoch + 1)).model
        ∧ (dntnRun epochs train vals stateRec m0 o0).1.best_e = (cp.epoch : ℤ)
        ∧ cp.stateRec = stateRec)
    ∧ (∀ q, (tuneObjective epochs train2 vals2 stateRec2 monitor m02 o02 purity).2
          = .score q →
        ∃ cp : Checkpoint (LTModel P) O2,
          (tuneLoopAux train2 vals2 stateRec2 monitor epochs 0 (tuneInit m02 o02)).1.disk
              = some cp
          ∧ q = purity cp.model
          ∧ (tuneObjective epochs train2 vals2 stateRec2 monitor m02 o02 purity).1.model
              = cp.model) := by
  constructor
  · intro cp hcp
    refine ⟨?_, ?_⟩
    · simp only [dntnFullRun]
      rw [hcp]
      rfl
    · have h1 := (dntn_run_correspond epochs train vals stateRec m0 o0).1
      rw [h1] at hcp
      obtain ⟨ha, hb, hc, _, _⟩ := dntnIter_disk_inv train vals stateRec m0 o0 _ cp hcp
      exact ⟨ha, by rw [h1]; exact hb, hc⟩
  · intro q hq
    by_cases hf : (tuneLoopAux train2 vals2 stateRec2 monitor epochs 0 (tuneInit m02 o02)).2.2 = true
    · have hobj : tuneObjective epochs train2 vals2 stateRec2 monitor m02 o02 purity
          = ((tuneLoopAux train2 vals2 stateRec2 monitor epochs 0 (tuneInit m02 o02)).1,
             .pruned) := by
        simp [tuneObjective, hf]
      rw [hobj] at hq
      simp at hq
    · have hf' : (tuneLoopAux train2 vals2 stateRec2 monitor epochs 0 (tuneInit m02 o02)).2.2 = false := by
        simpa using hf
      cases hd : (tuneLoopAux train2 vals2 stateRec2 monitor epochs 0 (tuneInit m02 o02)).1.disk with
      | none =>
          have hobj : tuneObjective epochs train2 vals2 stateRec2 monitor m02 o02 purity
              = ((tuneLoopAux train2 vals2 stateRec2 monitor epochs 0 (tuneInit m02 o02)).1,
                 .loadFailure) := by
            simp [tuneObjective, hf', hd]
          rw [hobj] at hq
          simp at hq
      | some cp =>
          have hobj : tuneObjective epochs train2 vals2 stateRec2 monitor m02 o02 purity
              = ({ (tuneLoopAux train2 vals2 stateRec2 monitor epochs 0 (tuneInit m02 o02)).1 with
                    model := cp.model,
                    log := (tuneLoopAux train2 vals2 stateRec2 monitor epochs 0 (tuneInit m02 o02)).1.log ++
                      [.write (epochs - 1) (monitor.write cp.model (epochs - 1) false ["val"]),
                       .close] },
                 .score (purity cp.model)) := by
            simp [tuneObjective, hf', hd]
          rw [hobj] at hq
          simp only [TuneOutcome.score.injEq] at hq
          exact ⟨cp, rfl, hq.symm, by rw [hobj]⟩

/-- C5 witness: a one-epoch dntn run whose checkpoint is `⟨(), (), [], 0, 1⟩`
evaluates the test oracle on the reloaded model, and a one-epoch trial
returns the purity score of its reloaded checkpoint model. -/
theorem reload_best_final_eval_witness :
    dntnFullRun 1 (fun _ (mo : Unit × Unit) => mo) (fun _ => FloatVal.num 1) [] () ()
        (fun _ => FloatVal.num 0) = .ok (FloatVal.num 0)
    ∧ ∃ cp : Checkpoint (LTModel Unit) Unit,
        (tuneLoopAux (fun _ (mo : LTModel Unit × Unit) => mo) (fun _ => FloatVal.num 1)
            [] ⟨true⟩ 1 0 (tuneInit ⟨⟨[], []⟩, ()⟩ ())).1.disk = some cp
        ∧ (0 : ℚ) = (fun _ : LTModel Unit => (0 : ℚ)) cp.model
        ∧ (tuneObjective 1 (fun _ (mo : LTModel Unit × Unit) => mo)
            (fun _ => FloatVal.num 1) [] ⟨true⟩ ⟨⟨[], []⟩, ()⟩ ()
            (fun _ => (0 : ℚ))).1.model = cp.model := by
  constructor
  · exact ((reload_best_final_eval 1 (fun _ (mo : Unit × Unit) => mo)
      (fun _ => FloatVal.num 1) [] () () (fun _ => FloatVal.num 0)
      (fun _ (mo : LTModel Unit × Unit) => mo) (fun _ => FloatVal.num 1) [] ⟨true⟩
      ⟨⟨[], []⟩, ()⟩ () (fun _ => (0 : ℚ))).1
      ⟨(), (), [], 0, FloatVal.num 1⟩ (by decide)).1
  · exact (reload_best_final_eval 1 (fun _ (mo : Unit × Unit) => mo)
      (fun _ => FloatVal.num 1) [] () () (fun _ => FloatVal.num 0)
      (fun _ (mo : LTModel Unit × Unit) => mo) (fun _ => FloatVal.num 1) [] ⟨true⟩
      ⟨⟨[], []⟩, ()⟩ () (fun _ => (0 : ℚ))).2 0 (by decide)

/-- C8 witness: no user arguments raise `IndexError`, worker count `"twelve"`
raises `ValueError`, and `("GLASS", "12")` parse to `("GLASS", 12)`. -/
theorem cli_surface_dntn_witness :
    dntnMain ["dntn.py"] 1 0 (fun _ (mo : Unit × Unit) => mo) (fun _ => FloatVal.nan)
        () () (fun _ => FloatVal.nan) = .error .indexError
    ∧ dntnMain ["dntn.py", "GLASS", "twelve"] 1 0 (fun _ (mo : Unit × Unit) => mo)
        (fun _ => FloatVal.nan) () () (fun _ => FloatVal.nan) = .error .valueError
    ∧ parseArgs ["dntn.py", "GLASS", "12"] = .ok ("GLASS", 12) := by
  have h := cli_surface_dntn 1 0 (fun _ (mo : Unit × Unit) => mo)
    (fun _ => FloatVal.nan) () () (fun _ => FloatVal.nan)
  exact ⟨h.1 ["dntn.py"] (by decide),
         h.2.1 "dntn.py" "GLASS" "twelve" [] (by decide),
         (h.2.2 "dntn.py" "GLASS" "12" [] 12 (by decide)).1⟩
